import Mathlib

/-!
The service go-sqlx-api: a shallow embedding of the request handlers, the
response envelope, the recovery middleware and the migration runner.

Go values become Lean values. The standard library and the SQL driver, whose
code is not part of the repository, are represented by their documented
behaviour (strings, strconv, the ResponseWriter of net/http, the struct tags
of encoding/json) or taken as parameters (the replies of the database, the
JSON decoder of request bodies, the clock). A response body is the list of
JSON documents written to it; a panic is the value `recover()` would return.
A Go string is a Lean string, so the strings covered are those that are valid
UTF-8. The response writer is `httptest.ResponseRecorder`, the writer of the
tests of the repository.
-/

set_option autoImplicit false

namespace GoSqlxApi

/-! ## Library layer: strings, strconv -/

/-- Substring test on character lists, the worker of `Contains`. -/
def containsChars : List Char → List Char → Bool
  | [], sub => sub.isEmpty
  | c :: cs, sub => sub.isPrefixOf (c :: cs) || containsChars cs sub

/-- The Go function `strings.Contains(s, substr)`. -/
def Contains (s substr : String) : Bool :=
  containsChars s.toList substr.toList

/-- The Go function `strings.TrimPrefix(s, p)`: `s` without the leading `p`
when it has one, `s` unchanged otherwise. -/
def TrimPrefix (s p : String) : String :=
  if p.toList.isPrefixOf s.toList then String.mk (s.toList.drop p.toList.length) else s

/-- The Go function `strings.Join(elems, sep)`. -/
def Join (elems : List String) (sep : String) : String :=
  sep.intercalate elems

/-- The Go function `strconv.Itoa`. -/
def Itoa (n : Int) : String :=
  toString n

/-- Width of Go's `int` on the 64-bit platforms the service is built for. -/
def intSize : Nat := 64

/-- Value of a run of decimal digits, most significant first. -/
def digitsValue (ds : List Char) : Nat :=
  ds.foldl (fun n ch => n * 10 + (ch.toNat - 48)) 0

/-- The Go function `strconv.Atoi`: an optional sign followed by at least one
decimal digit and nothing else, whose value fits `int`; `none` stands for the
non-nil error (syntax or range). -/
def Atoi (s : String) : Option Int :=
  let parse (neg : Bool) (ds : List Char) : Option Int :=
    if ds.isEmpty then none
    else if ds.all Char.isDigit then
      let v : Int := if neg then -(digitsValue ds : Int) else (digitsValue ds : Int)
      if -(2 : Int) ^ (intSize - 1) ≤ v ∧ v < (2 : Int) ^ (intSize - 1) then some v else none
    else none
  match s.toList with
  | [] => none
  | c :: cs =>
    if c = '-' then parse true cs
    else if c = '+' then parse false cs
    else parse false (c :: cs)

/-! ## encoding/json values -/

/-- A JSON document as encoding/json produces and consumes it. -/
inductive JVal where
  | null
  | bool (b : Bool)
  | num (n : Int)
  | str (s : String)
  | arr (xs : List JVal)
  | obj (kvs : List (String × JVal))

/-- The Go function `json.Marshal` for the values of one Go type: `none` when
the encoder returns an error (a channel, a function, a NaN float). -/
class Marshal (α : Type) where
  marshal : α → Option JVal

instance : Marshal JVal := ⟨fun v => some v⟩

/-- A Go channel, the standard example of a value encoding/json rejects. -/
structure Chan where
  cap : Nat

instance : Marshal Chan := ⟨fun _ => none⟩

/-- Go's `map[string]string` literal, as the key/value pairs in key order. -/
structure StringMap where
  entries : List (String × String)

instance : Marshal StringMap :=
  ⟨fun m => some (JVal.obj (m.entries.map (fun kv => (kv.1, JVal.str kv.2))))⟩

/-! ## internal/models -/

/-- A `time.Time` value, represented by its RFC 3339 text. `yearInRange` is
false for a time whose year lies outside 0..9999, for which
`Time.MarshalJSON` returns an error. -/
structure Time where
  rfc3339 : String
  yearInRange : Bool := true
  deriving DecidableEq, Repr

/-- The `AppError` struct of models/errors.go. -/
structure AppError where
  Code : Int
  Message : String
  deriving DecidableEq, Repr

/-- The method `(*AppError).Error`. -/
def AppError.Error (e : AppError) : String := e.Message

/-- The constructor `ErrInvalidInput` of models/errors.go. -/
def ErrInvalidInput (msg : String) : AppError :=
  { Code := 400, Message := msg }

/-- The `User` struct of models/user.go. -/
structure User where
  ID : Int
  Username : String
  Email : String
  CreatedAt : Time
  UpdatedAt : Time
  deriving DecidableEq, Repr

/-- The struct tags of `User`; the encoding fails when that of one of its
times does. -/
instance : Marshal User :=
  ⟨fun u =>
    if u.CreatedAt.yearInRange && u.UpdatedAt.yearInRange then
      some (JVal.obj
        [("id", JVal.num u.ID), ("username", JVal.str u.Username), ("email", JVal.str u.Email),
         ("created_at", JVal.str u.CreatedAt.rfc3339),
         ("updated_at", JVal.str u.UpdatedAt.rfc3339)])
    else none⟩

/-- A `[]models.User` filled by `db.Select`: no row leaves the slice nil, which
encodes as `null`; the encoding fails when that of one of the users does. -/
instance : Marshal (List User) :=
  ⟨fun us => if us.isEmpty then some JVal.null
    else if us.all (fun u => u.CreatedAt.yearInRange && u.UpdatedAt.yearInRange) then
      some (JVal.arr (us.map (fun u => JVal.obj
        [("id", JVal.num u.ID), ("username", JVal.str u.Username), ("email", JVal.str u.Email),
         ("created_at", JVal.str u.CreatedAt.rfc3339),
         ("updated_at", JVal.str u.UpdatedAt.rfc3339)])))
    else none⟩

/-- The `CreateUserRequest` struct of models/user.go. -/
structure CreateUserRequest where
  Username : String
  Email : String
  deriving DecidableEq, Repr

/-- The `UpdateUserRequest` struct of models/user.go. -/
structure UpdateUserRequest where
  Username : String
  Email : String
  deriving DecidableEq, Repr

/-- The method `(*CreateUserRequest).Validate`; `none` is the nil error. -/
def CreateUserRequest.Validate (r : CreateUserRequest) : Option AppError :=
  if r.Username = "" then some (ErrInvalidInput "username is required")
  else if r.Email = "" then some (ErrInvalidInput "email is required")
  else none

/-- The method `(*UpdateUserRequest).Validate`; `none` is the nil error. -/
def UpdateUserRequest.Validate (r : UpdateUserRequest) : Option AppError :=
  if r.Username = "" ∧ r.Email = "" then
    some (ErrInvalidInput "at least one field must be provided")
  else none

/-! ## net/http: the ResponseWriter -/

/-- The state of an `http.ResponseWriter`, following `httptest.ResponseRecorder`:
the header map being built, whether the header has been written and with
which status, the header map as it was at that moment, and the JSON documents
written to the body so far. The writer of net/http's server does the same
for the statuses the handlers use (200, 201, 4xx, 5xx); it differs for 1xx,
204 and 304, where it sends no body, and for 1xx other than 101, which it
sends as informational without fixing the status. -/
structure ResponseWriter where
  header : List (String × String)
  wroteHeader : Bool
  Code : Int
  sent : List (String × String)
  Body : List JVal

/-- The Go function `httptest.NewRecorder`: nothing written, status 200 by default. -/
def NewRecorder : ResponseWriter :=
  { header := [], wroteHeader := false, Code := 200, sent := [], Body := [] }

/-- The call `w.Header().Set(key, value)`. -/
def ResponseWriter.HeaderSet (w : ResponseWriter) (key value : String) : ResponseWriter :=
  { w with header := (key, value) :: w.header.filter (fun kv => kv.1 ≠ key) }

/-- The call `w.Header().Get(key)` on the header map of the response as sent. -/
def ResponseWriter.SentHeader (w : ResponseWriter) (key : String) : Option String :=
  w.sent.lookup key

/-- The call `w.WriteHeader(code)`: ignored once the header has been written,
a panic for a code outside 100..999 (the error carries the panic value), and
otherwise the status and the current header map are fixed. -/
def ResponseWriter.WriteHeader (w : ResponseWriter) (code : Int) : Except String ResponseWriter :=
  if w.wroteHeader then Except.ok w
  else if code < 100 ∨ code > 999 then
    Except.error ("invalid WriteHeader code " ++ toString code)
  else Except.ok { w with wroteHeader := true, Code := code, sent := w.header }

/-- The call `w.Write(...)` of one encoded JSON document: an implicit
`WriteHeader(200)` when the header is still unwritten, then the document is
appended to the body. -/
def ResponseWriter.Write (w : ResponseWriter) (doc : JVal) : ResponseWriter :=
  let w1 : ResponseWriter :=
    if w.wroteHeader then w else { w with wroteHeader := true, Code := 200, sent := w.header }
  { w1 with Body := w1.Body ++ [doc] }

/-- What a call leaves behind: the writer, and the panic value when the call
did not return normally. -/
structure Outcome where
  w : ResponseWriter
  panic : Option String

/-! ## pkg/response -/

/-- The `Response` struct of response.go; `Data` is an `interface{}`, `none`
being the nil interface. -/
structure Response (α : Type) where
  Success : Bool
  Data : Option α
  Error : String

/-- The struct tags of `Response`: `success` always, `data` and `error` with
`omitempty`; the encoding fails when the payload's does. -/
instance {α : Type} [Marshal α] : Marshal (Response α) :=
  ⟨fun r =>
    let errorField : List (String × JVal) :=
      if r.Error = "" then [] else [("error", JVal.str r.Error)]
    match r.Data with
    | none => some (JVal.obj (("success", JVal.bool r.Success) :: errorField))
    | some d =>
      match Marshal.marshal d with
      | none => none
      | some j => some (JVal.obj (("success", JVal.bool r.Success) :: ("data", j) :: errorField))⟩

/-- The Go function `response.JSON`. -/
def JSON {α : Type} [Marshal α] (w : ResponseWriter) (statusCode : Int) (data : α) : Outcome :=
  let w1 := w.HeaderSet "Content-Type" "application/json"
  match w1.WriteHeader statusCode with
  | Except.error p => { w := w1, panic := some p }
  | Except.ok w2 =>
    match Marshal.marshal data with
    | some doc => { w := w2.Write doc, panic := none }
    | none => { w := w2, panic := none }

/-- The envelope literal `Response{Success: true, Data: data}` of `Success`. -/
def successEnvelope {α : Type} (data : Option α) : Response α :=
  { Success := true, Data := data, Error := "" }

/-- The envelope literal `Response{Success: false, Error: message}` of `Error`. -/
def errorEnvelope (message : String) : Response JVal :=
  { Success := false, Data := none, Error := message }

/-- The Go function `response.Success`. -/
def Success {α : Type} [Marshal α] (w : ResponseWriter) (statusCode : Int) (data : Option α) :
    Outcome :=
  JSON w statusCode (successEnvelope data)

/-- The Go function `response.Error`. -/
def Error (w : ResponseWriter) (statusCode : Int) (message : String) : Outcome :=
  JSON w statusCode (errorEnvelope message)

/-- Value of the last occurrence of a key in a JSON object. -/
def lookupKey (kvs : List (String × JVal)) (key : String) : Option JVal :=
  kvs.reverse.lookup key

/-- Decoding of one JSON document into a `Response` by its struct tags, as
`json.Decoder.Decode(&resp)` does in response_test.go: an absent or null
field keeps its zero value, a field of the wrong JSON type is an error
(`none`). Keys are matched exactly, which is all a document written by the
encoder above needs. -/
def Response.unmarshal (doc : JVal) : Option (Response JVal) :=
  match doc with
  | JVal.null => some { Success := false, Data := none, Error := "" }
  | JVal.obj kvs =>
    let success : Option Bool :=
      match lookupKey kvs "success" with
      | none => some false
      | some JVal.null => some false
      | some (JVal.bool b) => some b
      | some _ => none
    let data : Option JVal :=
      match lookupKey kvs "data" with
      | none => none
      | some JVal.null => none
      | some v => some v
    let error : Option String :=
      match lookupKey kvs "error" with
      | none => some ""
      | some JVal.null => some ""
      | some (JVal.str s) => some s
      | some _ => none
    match success, error with
    | some b, some e => some { Success := b, Data := data, Error := e }
    | _, _ => none
  | _ => none

/-- The call `json.NewDecoder(w.Body).Decode(&resp)` on a recorded response:
the first document of the body, `none` on an empty body (EOF) or a decoding
error. -/
def decodeBody (w : ResponseWriter) : Option (Response JVal) :=
  match w.Body with
  | [] => none
  | doc :: _ => Response.unmarshal doc

/-! ## database/sql and sqlx, as the handlers use them -/

/-- An `error` returned by the database layer: the sentinel `sql.ErrNoRows`,
which the handlers recognise by identity, or any other error, known by its
text. -/
inductive DBError where
  | ErrNoRows
  | other (text : String)
  deriving DecidableEq, Repr

/-- The method `Error()` of a database error. -/
def DBError.Error : DBError → String
  | DBError.ErrNoRows => "sql: no rows in result set"
  | DBError.other text => text

/-- A query argument (`interface{}`): the handlers pass strings, times and ids. -/
inductive Arg where
  | str (s : String)
  | time (t : Time)
  | int (n : Int)
  deriving DecidableEq, Repr

/-- The `sql.Result` of a statement: what `RowsAffected()` returns. -/
structure ExecResult where
  RowsAffected : Except DBError Int

/-- One call made on the database handle, with its query text and arguments. -/
inductive DBCall where
  | Select (query : String)
  | Get (query : String) (args : List Arg)
  | QueryRowx (query : String) (args : List Arg)
  | Exec (query : String) (args : List Arg)
  deriving DecidableEq, Repr

/-- The arguments of a recorded call. -/
def DBCall.args : DBCall → List Arg
  | DBCall.Select _ => []
  | DBCall.Get _ args => args
  | DBCall.QueryRowx _ args => args
  | DBCall.Exec _ args => args

/-- The `*sqlx.DB` handle over a database in state `σ`: each method takes the
state, the query and its arguments and gives its reply and the next state.
`Select` and `Get` reply with the scanned rows, `QueryRowx` with the result of
`StructScan` on the returned row. -/
structure DB (σ : Type) where
  Select : σ → String → Except DBError (List User) × σ
  Get : σ → String → List Arg → Except DBError User × σ
  QueryRowx : σ → String → List Arg → Except DBError User × σ
  Exec : σ → String → List Arg → Except DBError ExecResult × σ

/-! ## internal/handlers -/

/-- The `Handlers` struct of handlers.go. -/
structure Handlers (σ : Type) where
  db : DB σ

/-- What the handlers take from outside the repository besides the database:
the clock (`time.Now()`) and the result of `json.NewDecoder(r.Body).Decode`
into each request struct (`none` when it returns an error). -/
structure Runtime where
  Now : Time
  DecodeCreate : String → Option CreateUserRequest
  DecodeUpdate : String → Option UpdateUserRequest

/-- The fields of `*http.Request` the handlers read. -/
structure Request where
  Method : String
  Path : String
  Body : String

/-- The result of serving one request: the response, the database state and
the database calls made, in order. -/
structure Handled (σ : Type) where
  out : Outcome
  state : σ
  calls : List DBCall

/-- The SQL text of `listUsers`. -/
def listQuery : String :=
  "SELECT id, username, email, created_at, updated_at FROM users ORDER BY id"

/-- The SQL text of `createUser`. -/
def insertQuery : String :=
  "\n\t\tINSERT INTO users (username, email, created_at, updated_at)\n\t\tVALUES ($1, $2, $3, $4)\n\t\tRETURNING id, username, email, created_at, updated_at\n\t"

/-- The SQL text of `getUser`. -/
def getQuery : String :=
  "SELECT id, username, email, created_at, updated_at FROM users WHERE id = $1"

/-- The SQL text of `deleteUser`. -/
def deleteQuery : String :=
  "DELETE FROM users WHERE id = $1"

/-- The uniqueness test of `createUser` and `updateUser`:
`strings.Contains(err.Error(), "duplicate") || strings.Contains(err.Error(), "unique")`. -/
def isConflict (err : DBError) : Bool :=
  Contains err.Error "duplicate" || Contains err.Error "unique"

/-- The handler `listUsers`. -/
def listUsers {σ : Type} (h : Handlers σ) (s : σ) (w : ResponseWriter) (_r : Request) :
    Handled σ :=
  match h.db.Select s listQuery with
  | (Except.error _, s1) =>
    { out := Error w 500 "Failed to fetch users", state := s1, calls := [DBCall.Select listQuery] }
  | (Except.ok users, s1) =>
    { out := Success w 200 (some users), state := s1, calls := [DBCall.Select listQuery] }

/-- The handler `createUser`. -/
def createUser {σ : Type} (h : Handlers σ) (rt : Runtime) (s : σ) (w : ResponseWriter)
    (r : Request) : Handled σ :=
  match rt.DecodeCreate r.Body with
  | none => { out := Error w 400 "Invalid request body", state := s, calls := [] }
  | some req =>
    match req.Validate with
    | some err => { out := Error w 400 err.Error, state := s, calls := [] }
    | none =>
      let now := rt.Now
      let args := [Arg.str req.Username, Arg.str req.Email, Arg.time now, Arg.time now]
      match h.db.QueryRowx s insertQuery args with
      | (Except.error err, s1) =>
        if isConflict err then
          { out := Error w 409 "User with this username or email already exists",
            state := s1, calls := [DBCall.QueryRowx insertQuery args] }
        else
          { out := Error w 500 "Failed to create user",
            state := s1, calls := [DBCall.QueryRowx insertQuery args] }
      | (Except.ok user, s1) =>
        { out := Success w 201 (some user), state := s1,
          calls := [DBCall.QueryRowx insertQuery args] }

/-- The handler `getUser`. -/
def getUser {σ : Type} (h : Handlers σ) (s : σ) (w : ResponseWriter) (_r : Request) (id : Int) :
    Handled σ :=
  match h.db.Get s getQuery [Arg.int id] with
  | (Except.error err, s1) =>
    if err = DBError.ErrNoRows then
      { out := Error w 404 "User not found", state := s1,
        calls := [DBCall.Get getQuery [Arg.int id]] }
    else
      { out := Error w 500 "Failed to fetch user", state := s1,
        calls := [DBCall.Get getQuery [Arg.int id]] }
  | (Except.ok user, s1) =>
    { out := Success w 200 (some user), state := s1,
      calls := [DBCall.Get getQuery [Arg.int id]] }

/-- The dynamic statement of `updateUser` (from `// Build dynamic update query`
to the assignment of `query`): the SQL text and its argument list. -/
def buildUpdate (req : UpdateUserRequest) (now : Time) (id : Int) : String × List Arg :=
  let updates : List String := []
  let args : List Arg := []
  let argPos : Int := 1
  let (updates, args, argPos) :=
    if req.Username ≠ "" then
      (updates ++ ["username = $" ++ Itoa argPos], args ++ [Arg.str req.Username], argPos + 1)
    else (updates, args, argPos)
  let (updates, args, argPos) :=
    if req.Email ≠ "" then
      (updates ++ ["email = $" ++ Itoa argPos], args ++ [Arg.str req.Email], argPos + 1)
    else (updates, args, argPos)
  let updates := updates ++ ["updated_at = $" ++ Itoa argPos]
  let args := args ++ [Arg.time now]
  let argPos := argPos + 1
  let args := args ++ [Arg.int id]
  let query :=
    "\n\t\tUPDATE users\n\t\tSET " ++ Join updates ", " ++ "\n\t\tWHERE id = $" ++ Itoa argPos
      ++ "\n\t\tRETURNING id, username, email, created_at, updated_at\n\t"
  (query, args)

/-- The handler `updateUser`. -/
def updateUser {σ : Type} (h : Handlers σ) (rt : Runtime) (s : σ) (w : ResponseWriter)
    (r : Request) (id : Int) : Handled σ :=
  match rt.DecodeUpdate r.Body with
  | none => { out := Error w 400 "Invalid request body", state := s, calls := [] }
  | some req =>
    match req.Validate with
    | some err => { out := Error w 400 err.Error, state := s, calls := [] }
    | none =>
      let stmt := buildUpdate req rt.Now id
      match h.db.QueryRowx s stmt.1 stmt.2 with
      | (Except.error err, s1) =>
        if err = DBError.ErrNoRows then
          { out := Error w 404 "User not found", state := s1,
            calls := [DBCall.QueryRowx stmt.1 stmt.2] }
        else if isConflict err then
          { out := Error w 409 "User with this username or email already exists",
            state := s1, calls := [DBCall.QueryRowx stmt.1 stmt.2] }
        else
          { out := Error w 500 "Failed to update user", state := s1,
            calls := [DBCall.QueryRowx stmt.1 stmt.2] }
      | (Except.ok user, s1) =>
        { out := Success w 200 (some user), state := s1,
          calls := [DBCall.QueryRowx stmt.1 stmt.2] }

/-- The handler `deleteUser`. -/
def deleteUser {σ : Type} (h : Handlers σ) (s : σ) (w : ResponseWriter) (_r : Request)
    (id : Int) : Handled σ :=
  match h.db.Exec s deleteQuery [Arg.int id] with
  | (Except.error _, s1) =>
    { out := Error w 500 "Failed to delete user", state := s1,
      calls := [DBCall.Exec deleteQuery [Arg.int id]] }
  | (Except.ok result, s1) =>
    match result.RowsAffected with
    | Except.error _ =>
      { out := Error w 500 "Failed to delete user", state := s1,
        calls := [DBCall.Exec deleteQuery [Arg.int id]] }
    | Except.ok rowsAffected =>
      if rowsAffected = 0 then
        { out := Error w 404 "User not found", state := s1,
          calls := [DBCall.Exec deleteQuery [Arg.int id]] }
      else
        { out := Success w 200
            (some ({ entries := [("message", "User deleted successfully")] } : StringMap)),
          state := s1, calls := [DBCall.Exec deleteQuery [Arg.int id]] }

/-- The handler `HandleUsers`, for `/api/v1/users`. -/
def HandleUsers {σ : Type} (h : Handlers σ) (rt : Runtime) (s : σ) (w : ResponseWriter)
    (r : Request) : Handled σ :=
  if r.Method = "GET" then listUsers h s w r
  else if r.Method = "POST" then createUser h rt s w r
  else { out := Error w 405 "Method not allowed", state := s, calls := [] }

/-- The handler `HandleUser`, for `/api/v1/users/{id}`. -/
def HandleUser {σ : Type} (h : Handlers σ) (rt : Runtime) (s : σ) (w : ResponseWriter)
    (r : Request) : Handled σ :=
  let path := TrimPrefix r.Path "/api/v1/users/"
  if path = "" then
    { out := Error w 400 "User ID is required", state := s, calls := [] }
  else
    match Atoi path with
    | none => { out := Error w 400 "Invalid user ID", state := s, calls := [] }
    | some id =>
      if r.Method = "GET" then getUser h s w r id
      else if r.Method = "PUT" then updateUser h rt s w r id
      else if r.Method = "DELETE" then deleteUser h s w r id
      else { out := Error w 405 "Method not allowed", state := s, calls := [] }

/-! ## internal/middleware -/

/-- The result of `ServeHTTP`: the response, the lines logged, and the value
`recover()` would return when the handler panicked (never nil while
panicking, as in Go 1.21 and later). The value is kept as its `%v` text. -/
structure Served where
  w : ResponseWriter
  log : List String
  panic : Option String

/-- An `http.Handler`. -/
abbrev Handler := ResponseWriter → Request → Served

/-- The middleware `Recovery`: the deferred function runs after `next`, and
when `recover()` is non-nil it logs the value and writes the 500 envelope. -/
def Recovery (next : Handler) : Handler := fun w r =>
  let served := next w r
  match served.panic with
  | some err =>
    let out := Error served.w 500 "Internal Server Error"
    { w := out.w, log := served.log ++ ["Panic recovered: " ++ err], panic := out.panic }
  | none => served

/-! ## internal/database -/

/-- The error built by `fmt.Errorf("migration %d failed: %w", i, err)`: its
text and the error it wraps. -/
structure MigrationError where
  text : String
  unwrap : DBError
  deriving DecidableEq, Repr

/-- The result of `RunMigrations`: the returned error (`none` is nil), the
database state and the statements executed, in order. -/
structure MigrationRun (σ : Type) where
  err : Option MigrationError
  state : σ
  calls : List DBCall

/-- The `migrations` slice of `RunMigrations`. -/
def migrations : List String :=
  ["CREATE TABLE IF NOT EXISTS users (\n\t\t\tid SERIAL PRIMARY KEY,\n\t\t\tusername VARCHAR(255) NOT NULL UNIQUE,\n\t\t\temail VARCHAR(255) NOT NULL UNIQUE,\n\t\t\tcreated_at TIMESTAMP NOT NULL DEFAULT NOW(),\n\t\t\tupdated_at TIMESTAMP NOT NULL DEFAULT NOW()\n\t\t)",
   "CREATE INDEX IF NOT EXISTS idx_users_username ON users(username)",
   "CREATE INDEX IF NOT EXISTS idx_users_email ON users(email)"]

/-- The `for i, migration := range migrations` loop of `RunMigrations`, from
index `i` on, with the statements still to run. -/
def runMigrationsFrom {σ : Type} (db : DB σ) :
    Nat → List String → σ → List DBCall → MigrationRun σ
  | _, [], s, calls => { err := none, state := s, calls := calls }
  | i, migration :: rest, s, calls =>
    match db.Exec s migration [] with
    | (Except.error err, s1) =>
      { err := some { text := "migration " ++ toString i ++ " failed: " ++ err.Error,
                      unwrap := err },
        state := s1, calls := calls ++ [DBCall.Exec migration []] }
    | (Except.ok _, s1) =>
      runMigrationsFrom db (i + 1) rest s1 (calls ++ [DBCall.Exec migration []])

/-- The Go function `database.RunMigrations`. -/
def RunMigrations {σ : Type} (db : DB σ) (s : σ) : MigrationRun σ :=
  runMigrationsFrom db 0 migrations s []

/-! ## Test doubles -/

/-- A database in which no query finds a row and no statement touches one. -/
def noRowsDB : DB Unit :=
  { Select := fun s _ => (Except.ok [], s),
    Get := fun s _ _ => (Except.error DBError.ErrNoRows, s),
    QueryRowx := fun s _ _ => (Except.error DBError.ErrNoRows, s),
    Exec := fun s _ _ => (Except.ok { RowsAffected := Except.ok 0 }, s) }

/-- A database whose every call fails with the given error text. -/
def failingDB (text : String) : DB Unit :=
  { Select := fun s _ => (Except.error (DBError.other text), s),
    Get := fun s _ _ => (Except.error (DBError.other text), s),
    QueryRowx := fun s _ _ => (Except.error (DBError.other text), s),
    Exec := fun s _ _ => (Except.error (DBError.other text), s) }

/-- A database whose statements follow a script: the state lists the results
of the coming `Exec` calls (`none` is success), and success once it is used up. -/
def scriptedDB : DB (List (Option DBError)) :=
  { Select := fun s _ => (Except.ok [], s),
    Get := fun s _ _ => (Except.error DBError.ErrNoRows, s),
    QueryRowx := fun s _ _ => (Except.error DBError.ErrNoRows, s),
    Exec := fun s _ _ =>
      match s with
      | some err :: rest => (Except.error err, rest)
      | none :: rest => (Except.ok { RowsAffected := Except.ok 0 }, rest)
      | [] => (Except.ok { RowsAffected := Except.ok 0 }, []) }

/-- A runtime whose decoder yields the given request structs for every body. -/
def fixedRuntime (c : CreateUserRequest) (u : UpdateUserRequest) : Runtime :=
  { Now := { rfc3339 := "2024-01-01T00:00:00Z" },
    DecodeCreate := fun _ => some c,
    DecodeUpdate := fun _ => some u }

/-- A user whose times lie in the year 10000, which `time.Time` can hold and
encoding/json cannot encode. -/
def farFutureUser : User :=
  { ID := 1,
    Username := "neo",
    Email := "neo@x.com",
    CreatedAt := { rfc3339 := "10000-01-01T00:00:00Z", yearInRange := false },
    UpdatedAt := { rfc3339 := "10000-01-01T00:00:00Z", yearInRange := false } }

/-- A handler that writes a 200 header and then panics. -/
def panicAfterHeader : Handler := fun w _ =>
  match w.WriteHeader 200 with
  | Except.ok w1 => { w := w1, log := [], panic := some "late failure" }
  | Except.error p => { w := w, log := [], panic := some p }

/-- A handler that panics before writing anything, as in `TestRecovery`. -/
def panicAtOnce : Handler := fun w _ =>
  { w := w, log := [], panic := some "test panic" }

/-! ## Validation (models/user.go) -/

/-- C1: `CreateUserRequest.Validate` returns a non-nil error if and only if
the username is empty or the email is empty. -/
theorem createUserRequest_validate_error_iff (r : CreateUserRequest) :
    r.Validate ≠ none ↔ (r.Username = "" ∨ r.Email = "") := by
  unfold CreateUserRequest.Validate
  by_cases hu : r.Username = ""
  · simp [hu]
  · by_cases he : r.Email = ""
    · simp [hu, he]
    · simp [hu, he]

/-- C2: `UpdateUserRequest.Validate` returns a non-nil error if and only if
both the username and the email are empty, and it accepts (nil error) exactly
the requests with at least one non-empty field. -/
theorem updateUserRequest_validate_error_iff (r : UpdateUserRequest) :
    (r.Validate ≠ none ↔ (r.Username = "" ∧ r.Email = "")) ∧
    (r.Validate = none ↔ (r.Username ≠ "" ∨ r.Email ≠ "")) := by
  unfold UpdateUserRequest.Validate
  by_cases h : r.Username = "" ∧ r.Email = ""
  · simp [h]
  · have h2 : r.Username ≠ "" ∨ r.Email ≠ "" := by
      by_contra hc
      push_neg at hc
      exact h hc
    simp only [h, if_false, ne_eq, not_true_eq_false, false_iff, not_false_eq_true, true_iff,
      true_and]
    exact h2

/-! ## The envelope (pkg/response) -/

/-- C3, as stated, fails: the envelope of `Success` with a nil payload and the
envelope of `Error` with the empty message have neither `data` nor `error`
populated, in the struct and in the JSON object written. -/
theorem envelope_neither_populated :
    ((successEnvelope (none : Option JVal)).Data.isSome = false ∧
      (successEnvelope (none : Option JVal)).Error = "" ∧
      Marshal.marshal (successEnvelope (none : Option JVal))
        = some (JVal.obj [("success", JVal.bool true)])) ∧
    ((errorEnvelope "").Data.isSome = false ∧
      (errorEnvelope "").Error = "" ∧
      Marshal.marshal (errorEnvelope "") = some (JVal.obj [("success", JVal.bool false)])) := by
  refine ⟨⟨rfl, rfl, ?_⟩, ⟨rfl, rfl, ?_⟩⟩
  · simp [Marshal.marshal, successEnvelope]
  · simp [Marshal.marshal, errorEnvelope]

/-- C3, amended: the envelope of `Success` has success true, the payload as
data and an empty error; the envelope of `Error` has success false, no data
and the message as error. So the two fields are never both populated, data is
populated exactly when the payload is non-nil, and error exactly when the
message is non-empty; the JSON object written has the key `data` only for a
non-nil payload and the key `error` only for a non-empty message. -/
theorem envelope_fields {α : Type} [Marshal α] (d : Option α) (m : String) :
    ((successEnvelope d).Success = true ∧ (successEnvelope d).Data = d ∧
      (successEnvelope d).Error = "") ∧
    ((errorEnvelope m).Success = false ∧ (errorEnvelope m).Data = none ∧
      (errorEnvelope m).Error = m) ∧
    ¬ ((successEnvelope d).Data.isSome = true ∧ (successEnvelope d).Error ≠ "") ∧
    ¬ ((errorEnvelope m).Data.isSome = true ∧ (errorEnvelope m).Error ≠ "") ∧
    ((successEnvelope d).Data.isSome = d.isSome) ∧
    ((errorEnvelope m).Error ≠ "" ↔ m ≠ "") ∧
    Marshal.marshal (successEnvelope d) =
      (match d with
        | none => some (JVal.obj [("success", JVal.bool true)])
        | some v =>
          (Marshal.marshal v).map
            (fun j => JVal.obj [("success", JVal.bool true), ("data", j)])) ∧
    Marshal.marshal (errorEnvelope m) =
      some (JVal.obj (("success", JVal.bool false) ::
        (if m = "" then [] else [("error", JVal.str m)]))) := by
  refine ⟨⟨rfl, rfl, rfl⟩, ⟨rfl, rfl, rfl⟩, ?_, ?_, rfl, Iff.rfl, ?_, ?_⟩
  · simp [successEnvelope]
  · simp [errorEnvelope]
  · cases d with
    | none => simp [Marshal.marshal, successEnvelope]
    | some v =>
      simp only [Marshal.marshal, successEnvelope]
      cases hv : (Marshal.marshal v : Option JVal) <;> simp [Marshal.marshal] at hv ⊢
  · simp [Marshal.marshal, errorEnvelope]

/-! ## Helper lemmas: strings, the writer -/

/-- Trimming the item prefix off a path that starts with it leaves the segment. -/
theorem trimPrefix_append (p seg : String) : TrimPrefix (p ++ seg) p = seg := by
  unfold TrimPrefix
  have h1 : (p ++ seg).toList = p.toList ++ seg.toList := by
    simp [String.toList]
  have h2 : p.toList.isPrefixOf (p.toList ++ seg.toList) = true := by
    rw [List.isPrefixOf_iff_prefix]
    exact List.prefix_append _ _
  rw [h1, if_pos h2, List.drop_left]
  rfl

/-- The empty string is not an integer for `Atoi`. -/
theorem atoi_empty : Atoi "" = none := by
  rfl

/-- A segment `Atoi` accepts is not empty. -/
theorem atoi_ne_empty (seg : String) (id : Int) (h : Atoi seg = some id) : seg ≠ "" := by
  intro hs
  rw [hs, atoi_empty] at h
  exact Option.noConfusion h

/-- The response `Error` writes on a writer whose header is still unwritten,
for a status net/http accepts: the status, the content type, and the error
envelope appended to the body. -/
theorem error_unwritten (w : ResponseWriter) (status : Int) (m : String)
    (hw : w.wroteHeader = false) (hlo : 100 ≤ status) (hhi : status ≤ 999) :
    Error w status m =
      { w :=
          { header := ("Content-Type", "application/json") ::
              w.header.filter (fun kv => kv.1 ≠ "Content-Type"),
            wroteHeader := true,
            Code := status,
            sent := ("Content-Type", "application/json") ::
              w.header.filter (fun kv => kv.1 ≠ "Content-Type"),
            Body := w.Body ++ [JVal.obj (("success", JVal.bool false) ::
              (if m = "" then [] else [("error", JVal.str m)]))] },
        panic := none } := by
  have hc : ¬ (status < 100 ∨ status > 999) := by omega
  simp [Error, JSON, ResponseWriter.HeaderSet, ResponseWriter.WriteHeader, hw, hc,
    Marshal.marshal, errorEnvelope, ResponseWriter.Write]

/-! ## Not found (handlers/users.go) -/

/-- C4: on the item endpoint with a path segment that parses to `id`, GET
answers 404 "User not found" when the query yields `sql.ErrNoRows`, PUT does
so when the body decodes, passes validation and the update yields
`sql.ErrNoRows`, and DELETE does so when the statement succeeds with zero
rows affected; on a fresh writer that response has status 404 and the body
is the error envelope with that message. -/
theorem handleUser_not_found {σ : Type} (h : Handlers σ) (rt : Runtime) (s : σ)
    (w : ResponseWriter) (r : Request) (seg : String) (id : Int)
    (hpath : r.Path = "/api/v1/users/" ++ seg) (hid : Atoi seg = some id) :
    (r.Method = "GET" →
      (h.db.Get s getQuery [Arg.int id]).1 = Except.error DBError.ErrNoRows →
      (HandleUser h rt s w r).out = Error w 404 "User not found") ∧
    (r.Method = "PUT" → ∀ req : UpdateUserRequest,
      rt.DecodeUpdate r.Body = some req → req.Validate = none →
      (h.db.QueryRowx s (buildUpdate req rt.Now id).1 (buildUpdate req rt.Now id).2).1
        = Except.error DBError.ErrNoRows →
      (HandleUser h rt s w r).out = Error w 404 "User not found") ∧
    (r.Method = "DELETE" → ∀ res : ExecResult,
      (h.db.Exec s deleteQuery [Arg.int id]).1 = Except.ok res →
      res.RowsAffected = Except.ok 0 →
      (HandleUser h rt s w r).out = Error w 404 "User not found") ∧
    (w.wroteHeader = false →
      (Error w 404 "User not found").panic = none ∧
      (Error w 404 "User not found").w.Code = 404 ∧
      (Error w 404 "User not found").w.Body = w.Body ++
        [JVal.obj [("success", JVal.bool false), ("error", JVal.str "User not found")]]) := by
  have hseg : seg ≠ "" := atoi_ne_empty seg id hid
  have htrim : TrimPrefix r.Path "/api/v1/users/" = seg := by
    rw [hpath]; exact trimPrefix_append _ _
  refine ⟨?_, ?_, ?_, ?_⟩
  · intro hm hget
    simp only [HandleUser, htrim, hseg, if_false, hid, hm, if_true, getUser]
    cases hq : h.db.Get s getQuery [Arg.int id] with
    | mk reply s1 =>
      rw [hq] at hget
      simp only at hget
      subst hget
      simp
  · intro hm req hdec hval hq
    have hne : ¬ ("PUT" = "GET") := by decide
    simp only [HandleUser, htrim, hseg, if_false, hid, hm, hne, if_true, updateUser, hdec, hval]
    cases hq2 : h.db.QueryRowx s (buildUpdate req rt.Now id).1 (buildUpdate req rt.Now id).2 with
    | mk reply s1 =>
      rw [hq2] at hq
      simp only at hq
      subst hq
      simp
  · intro hm res hexec hrows
    have hne1 : ¬ ("DELETE" = "GET") := by decide
    have hne2 : ¬ ("DELETE" = "PUT") := by decide
    simp only [HandleUser, htrim, hseg, if_false, hid, hm, hne1, hne2, if_true, deleteUser]
    cases hq : h.db.Exec s deleteQuery [Arg.int id] with
    | mk reply s1 =>
      rw [hq] at hexec
      simp only at hexec
      subst hexec
      simp [hrows]
  · intro hw
    rw [error_unwritten w 404 "User not found" hw (by decide) (by decide)]
    simp

/-- Instance of C4 on a database without rows: GET, PUT and DELETE of user 42. -/
theorem handleUser_not_found_witness :
    Atoi "42" = some 42 ∧
    (HandleUser { db := noRowsDB }
        (fixedRuntime { Username := "", Email := "" } { Username := "neo", Email := "" }) ()
        NewRecorder { Method := "GET", Path := "/api/v1/users/42", Body := "" }).out
      = Error NewRecorder 404 "User not found" ∧
    (HandleUser { db := noRowsDB }
        (fixedRuntime { Username := "", Email := "" } { Username := "neo", Email := "" }) ()
        NewRecorder { Method := "PUT", Path := "/api/v1/users/42", Body := "" }).out
      = Error NewRecorder 404 "User not found" ∧
    (HandleUser { db := noRowsDB }
        (fixedRuntime { Username := "", Email := "" } { Username := "neo", Email := "" }) ()
        NewRecorder { Method := "DELETE", Path := "/api/v1/users/42", Body := "" }).out
      = Error NewRecorder 404 "User not found" ∧
    (Error NewRecorder 404 "User not found").w.Code = 404 :=
  ⟨by decide,
   (handleUser_not_found { db := noRowsDB }
      (fixedRuntime { Username := "", Email := "" } { Username := "neo", Email := "" }) ()
      NewRecorder { Method := "GET", Path := "/api/v1/users/42", Body := "" } "42" 42
      (by decide) (by decide)).1 rfl rfl,
   (handleUser_not_found { db := noRowsDB }
      (fixedRuntime { Username := "", Email := "" } { Username := "neo", Email := "" }) ()
      NewRecorder { Method := "PUT", Path := "/api/v1/users/42", Body := "" } "42" 42
      (by decide) (by decide)).2.1 rfl { Username := "neo", Email := "" } rfl (by decide) rfl,
   (handleUser_not_found { db := noRowsDB }
      (fixedRuntime { Username := "", Email := "" } { Username := "neo", Email := "" }) ()
      NewRecorder { Method := "DELETE", Path := "/api/v1/users/42", Body := "" } "42" 42
      (by decide) (by decide)).2.2.1 rfl { RowsAffected := Except.ok 0 } rfl rfl,
   ((handleUser_not_found { db := noRowsDB }
      (fixedRuntime { Username := "", Email := "" } { Username := "neo", Email := "" }) ()
      NewRecorder { Method := "GET", Path := "/api/v1/users/42", Body := "" } "42" 42
      (by decide) (by decide)).2.2.2 rfl).2.1⟩

/-! ## Storage failures (handlers/users.go) -/

/-- The response of `createUser` to a storage error depends on the error only through `isConflict`. -/
theorem createUser_storage_error {σ : Type} (h : Handlers σ) (rt : Runtime) (s : σ)
    (w : ResponseWriter) (r : Request) (req : CreateUserRequest) (err : DBError)
    (hdec : rt.DecodeCreate r.Body = some req) (hval : req.Validate = none)
    (hq : (h.db.QueryRowx s insertQuery
      [Arg.str req.Username, Arg.str req.Email, Arg.time rt.Now, Arg.time rt.Now]).1
        = Except.error err) :
    (createUser h rt s w r).out =
      if isConflict err then Error w 409 "User with this username or email already exists"
      else Error w 500 "Failed to create user" := by
  simp only [createUser, hdec, hval]
  cases hq2 : h.db.QueryRowx s insertQuery
      [Arg.str req.Username, Arg.str req.Email, Arg.time rt.Now, Arg.time rt.Now] with
  | mk reply s1 =>
    rw [hq2] at hq
    simp only at hq
    subst hq
    by_cases hc : isConflict err = true <;> simp [hc]

/-- The response of `updateUser` to a storage error other than `sql.ErrNoRows` depends on the error only through `isConflict`. -/
theorem updateUser_storage_error {σ : Type} (h : Handlers σ) (rt : Runtime) (s : σ)
    (w : ResponseWriter) (r : Request) (id : Int) (req : UpdateUserRequest) (err : DBError)
    (hdec : rt.DecodeUpdate r.Body = some req) (hval : req.Validate = none)
    (hq : (h.db.QueryRowx s (buildUpdate req rt.Now id).1 (buildUpdate req rt.Now id).2).1
        = Except.error err)
    (hne : err ≠ DBError.ErrNoRows) :
    (updateUser h rt s w r id).out =
      if isConflict err then Error w 409 "User with this username or email already exists"
      else Error w 500 "Failed to update user" := by
  simp only [updateUser, hdec, hval]
  cases hq2 : h.db.QueryRowx s (buildUpdate req rt.Now id).1 (buildUpdate req rt.Now id).2 with
  | mk reply s1 =>
    rw [hq2] at hq
    simp only at hq
    subst hq
    by_cases hc : isConflict err = true <;> simp [hc, hne]

/-- C5: when the insert of a validated create request fails in storage,
`createUser` answers 409 if the error text contains "duplicate" or "unique"
and 500 otherwise; `updateUser` does the same for every failure other than
`sql.ErrNoRows`. The message is a fixed string per handler and class, so two
failures of the same class give identical responses, whatever the error
texts, the requests and the databases are. -/
theorem storage_failure_response {σ : Type} (w : ResponseWriter) :
    (∀ (h : Handlers σ) (rt : Runtime) (s : σ) (r : Request) (req : CreateUserRequest)
        (err : DBError),
      rt.DecodeCreate r.Body = some req → req.Validate = none →
      (h.db.QueryRowx s insertQuery
        [Arg.str req.Username, Arg.str req.Email, Arg.time rt.Now, Arg.time rt.Now]).1
          = Except.error err →
      (createUser h rt s w r).out =
        if Contains err.Error "duplicate" || Contains err.Error "unique" then
          Error w 409 "User with this username or email already exists"
        else Error w 500 "Failed to create user") ∧
    (∀ (h : Handlers σ) (rt : Runtime) (s : σ) (r : Request) (id : Int)
        (req : UpdateUserRequest) (err : DBError),
      rt.DecodeUpdate r.Body = some req → req.Validate = none →
      (h.db.QueryRowx s (buildUpdate req rt.Now id).1 (buildUpdate req rt.Now id).2).1
          = Except.error err →
      err ≠ DBError.ErrNoRows →
      (updateUser h rt s w r id).out =
        if Contains err.Error "duplicate" || Contains err.Error "unique" then
          Error w 409 "User with this username or email already exists"
        else Error w 500 "Failed to update user") ∧
    (∀ (h1 h2 : Handlers σ) (rt1 rt2 : Runtime) (s1 s2 : σ) (r1 r2 : Request)
        (req1 req2 : CreateUserRequest) (e1 e2 : DBError),
      rt1.DecodeCreate r1.Body = some req1 → req1.Validate = none →
      (h1.db.QueryRowx s1 insertQuery
        [Arg.str req1.Username, Arg.str req1.Email, Arg.time rt1.Now, Arg.time rt1.Now]).1
          = Except.error e1 →
      rt2.DecodeCreate r2.Body = some req2 → req2.Validate = none →
      (h2.db.QueryRowx s2 insertQuery
        [Arg.str req2.Username, Arg.str req2.Email, Arg.time rt2.Now, Arg.time rt2.Now]).1
          = Except.error e2 →
      isConflict e1 = isConflict e2 →
      (createUser h1 rt1 s1 w r1).out = (createUser h2 rt2 s2 w r2).out) ∧
    (∀ (h1 h2 : Handlers σ) (rt1 rt2 : Runtime) (s1 s2 : σ) (r1 r2 : Request) (id1 id2 : Int)
        (req1 req2 : UpdateUserRequest) (e1 e2 : DBError),
      rt1.DecodeUpdate r1.Body = some req1 → req1.Validate = none →
      (h1.db.QueryRowx s1 (buildUpdate req1 rt1.Now id1).1 (buildUpdate req1 rt1.Now id1).2).1
          = Except.error e1 →
      e1 ≠ DBError.ErrNoRows →
      rt2.DecodeUpdate r2.Body = some req2 → req2.Validate = none →
      (h2.db.QueryRowx s2 (buildUpdate req2 rt2.Now id2).1 (buildUpdate req2 rt2.Now id2).2).1
          = Except.error e2 →
      e2 ≠ DBError.ErrNoRows →
      isConflict e1 = isConflict e2 →
      (updateUser h1 rt1 s1 w r1 id1).out = (updateUser h2 rt2 s2 w r2 id2).out) ∧
    (w.wroteHeader = false →
      (Error w 409 "User with this username or email already exists").w.Code = 409 ∧
      (Error w 409 "User with this username or email already exists").w.Body = w.Body ++
        [JVal.obj [("success", JVal.bool false),
          ("error", JVal.str "User with this username or email already exists")]] ∧
      (Error w 500 "Failed to create user").w.Code = 500 ∧
      (Error w 500 "Failed to create user").w.Body = w.Body ++
        [JVal.obj [("success", JVal.bool false), ("error", JVal.str "Failed to create user")]] ∧
      (Error w 500 "Failed to update user").w.Code = 500 ∧
      (Error w 500 "Failed to update user").w.Body = w.Body ++
        [JVal.obj [("success", JVal.bool false),
          ("error", JVal.str "Failed to update user")]]) := by
  refine ⟨?_, ?_, ?_, ?_, ?_⟩
  · intro h rt s r req err hdec hval hq
    exact createUser_storage_error h rt s w r req err hdec hval hq
  · intro h rt s r id req err hdec hval hq hne
    exact updateUser_storage_error h rt s w r id req err hdec hval hq hne
  · intro h1 h2 rt1 rt2 s1 s2 r1 r2 req1 req2 e1 e2 hd1 hv1 hq1 hd2 hv2 hq2 hcls
    rw [createUser_storage_error h1 rt1 s1 w r1 req1 e1 hd1 hv1 hq1,
      createUser_storage_error h2 rt2 s2 w r2 req2 e2 hd2 hv2 hq2, hcls]
  · intro h1 h2 rt1 rt2 s1 s2 r1 r2 id1 id2 req1 req2 e1 e2 hd1 hv1 hq1 hn1 hd2 hv2 hq2 hn2 hcls
    rw [updateUser_storage_error h1 rt1 s1 w r1 id1 req1 e1 hd1 hv1 hq1 hn1,
      updateUser_storage_error h2 rt2 s2 w r2 id2 req2 e2 hd2 hv2 hq2 hn2, hcls]
  · intro hw
    rw [error_unwritten w 409 _ hw (by decide) (by decide),
      error_unwritten w 500 "Failed to create user" hw (by decide) (by decide),
      error_unwritten w 500 "Failed to update user" hw (by decide) (by decide)]
    simp

/-- Instance of C5: a duplicate-key error gives 409, a refused connection gives 500, and two errors of the second class give the same response. -/
theorem storage_failure_response_witness :
    (createUser { db := failingDB "pq: duplicate key value violates unique constraint" }
        (fixedRuntime { Username := "neo", Email := "neo@x.com" } { Username := "", Email := "" })
        () NewRecorder { Method := "POST", Path := "/api/v1/users", Body := "" }).out
      = Error NewRecorder 409 "User with this username or email already exists" ∧
    (createUser { db := failingDB "dial tcp 10.0.0.7:5432: connection refused" }
        (fixedRuntime { Username := "neo", Email := "neo@x.com" } { Username := "", Email := "" })
        () NewRecorder { Method := "POST", Path := "/api/v1/users", Body := "" }).out
      = Error NewRecorder 500 "Failed to create user" ∧
    (updateUser { db := failingDB "UNIQUE constraint failed: unique index users.email" }
        (fixedRuntime { Username := "", Email := "" } { Username := "", Email := "neo@x.com" })
        () NewRecorder { Method := "PUT", Path := "/api/v1/users/7", Body := "" } 7).out
      = Error NewRecorder 409 "User with this username or email already exists" ∧
    (createUser { db := failingDB "dial tcp 10.0.0.7:5432: connection refused" }
        (fixedRuntime { Username := "neo", Email := "neo@x.com" } { Username := "", Email := "" })
        () NewRecorder { Method := "POST", Path := "/api/v1/users", Body := "" }).out
      = (createUser { db := failingDB "pq: password authentication failed for user postgres" }
        (fixedRuntime { Username := "trinity", Email := "t@x.com" } { Username := "", Email := "" })
        () NewRecorder { Method := "POST", Path := "/api/v1/users", Body := "" }).out ∧
    (Error NewRecorder 409 "User with this username or email already exists").w.Code = 409 :=
  ⟨((storage_failure_response NewRecorder).1
      { db := failingDB "pq: duplicate key value violates unique constraint" }
      (fixedRuntime { Username := "neo", Email := "neo@x.com" } { Username := "", Email := "" })
      () { Method := "POST", Path := "/api/v1/users", Body := "" }
      { Username := "neo", Email := "neo@x.com" }
      (DBError.other "pq: duplicate key value violates unique constraint")
      rfl (by decide) rfl).trans (if_pos (by decide)),
   ((storage_failure_response NewRecorder).1
      { db := failingDB "dial tcp 10.0.0.7:5432: connection refused" }
      (fixedRuntime { Username := "neo", Email := "neo@x.com" } { Username := "", Email := "" })
      () { Method := "POST", Path := "/api/v1/users", Body := "" }
      { Username := "neo", Email := "neo@x.com" }
      (DBError.other "dial tcp 10.0.0.7:5432: connection refused")
      rfl (by decide) rfl).trans (if_neg (by decide)),
   ((storage_failure_response NewRecorder).2.1
      { db := failingDB "UNIQUE constraint failed: unique index users.email" }
      (fixedRuntime { Username := "", Email := "" } { Username := "", Email := "neo@x.com" })
      () { Method := "PUT", Path := "/api/v1/users/7", Body := "" } 7
      { Username := "", Email := "neo@x.com" }
      (DBError.other "UNIQUE constraint failed: unique index users.email")
      rfl (by decide) rfl (by decide)).trans (if_pos (by decide)),
   (storage_failure_response NewRecorder).2.2.1
      { db := failingDB "dial tcp 10.0.0.7:5432: connection refused" }
      { db := failingDB "pq: password authentication failed for user postgres" }
      (fixedRuntime { Username := "neo", Email := "neo@x.com" } { Username := "", Email := "" })
      (fixedRuntime { Username := "trinity", Email := "t@x.com" } { Username := "", Email := "" })
      () () { Method := "POST", Path := "/api/v1/users", Body := "" }
      { Method := "POST", Path := "/api/v1/users", Body := "" }
      { Username := "neo", Email := "neo@x.com" } { Username := "trinity", Email := "t@x.com" }
      (DBError.other "dial tcp 10.0.0.7:5432: connection refused")
      (DBError.other "pq: password authentication failed for user postgres")
      rfl (by decide) rfl rfl (by decide) rfl (by decide),
   ((@storage_failure_response Unit NewRecorder).2.2.2.2 rfl).1⟩

/-! ## Dispatch on the item endpoint (handlers/users.go) -/

/-- The one database call of `getUser`. -/
theorem getUser_calls {σ : Type} (h : Handlers σ) (s : σ) (w : ResponseWriter) (r : Request)
    (id : Int) : (getUser h s w r id).calls = [DBCall.Get getQuery [Arg.int id]] := by
  unfold getUser
  cases h.db.Get s getQuery [Arg.int id] with
  | mk reply s1 =>
    cases reply with
    | error err => by_cases he : err = DBError.ErrNoRows <;> simp [he]
    | ok user => rfl

/-- The one database call of `deleteUser`. -/
theorem deleteUser_calls {σ : Type} (h : Handlers σ) (s : σ) (w : ResponseWriter) (r : Request)
    (id : Int) : (deleteUser h s w r id).calls = [DBCall.Exec deleteQuery [Arg.int id]] := by
  unfold deleteUser
  cases h.db.Exec s deleteQuery [Arg.int id] with
  | mk reply s1 =>
    cases reply with
    | error err => rfl
    | ok res =>
      cases hr : res.RowsAffected with
      | error err => simp [hr]
      | ok n => by_cases hn : n = 0 <;> simp [hr, hn]

/-- The id is the last argument of the update statement. -/
theorem buildUpdate_args_last (req : UpdateUserRequest) (now : Time) (id : Int) :
    (buildUpdate req now id).2.getLast? = some (Arg.int id) := by
  unfold buildUpdate
  by_cases hu : req.Username = "" <;> by_cases he : req.Email = "" <;> simp [hu, he]

/-- Every database call of `updateUser` ends with the id. -/
theorem updateUser_calls {σ : Type} (h : Handlers σ) (rt : Runtime) (s : σ) (w : ResponseWriter)
    (r : Request) (id : Int) :
    ∀ c ∈ (updateUser h rt s w r id).calls, c.args.getLast? = some (Arg.int id) := by
  unfold updateUser
  cases rt.DecodeUpdate r.Body with
  | none => simp
  | some req =>
    cases hv : req.Validate with
    | some err => simp [hv]
    | none =>
      simp only [hv]
      cases h.db.QueryRowx s (buildUpdate req rt.Now id).1 (buildUpdate req rt.Now id).2 with
      | mk reply s1 =>
        cases reply with
        | error err =>
          by_cases he : err = DBError.ErrNoRows <;> by_cases hc : isConflict err = true <;>
            simp [he, hc, DBCall.args, buildUpdate_args_last]
        | ok user => simp [DBCall.args, buildUpdate_args_last]

/-- C6: on the item endpoint, a path segment that `strconv.Atoi` rejects (the
empty segment, "5/" and 9223372036854775808 among them) gets a 400 response
for every method, with no database call and the database state untouched;
a segment that parses to `id` sends the request to the operation its method
selects with that `id`, and every database call then made carries `id` as its
last argument. -/
theorem handleUser_id_parsing {σ : Type} (h : Handlers σ) (rt : Runtime) (s : σ)
    (w : ResponseWriter) (r : Request) (seg : String)
    (hpath : r.Path = "/api/v1/users/" ++ seg) :
    (Atoi seg = none →
      (HandleUser h rt s w r).out =
        Error w 400 (if seg = "" then "User ID is required" else "Invalid user ID") ∧
      (HandleUser h rt s w r).calls = [] ∧
      (HandleUser h rt s w r).state = s) ∧
    (∀ id : Int, Atoi seg = some id →
      HandleUser h rt s w r =
        (if r.Method = "GET" then getUser h s w r id
         else if r.Method = "PUT" then updateUser h rt s w r id
         else if r.Method = "DELETE" then deleteUser h s w r id
         else { out := Error w 405 "Method not allowed", state := s, calls := [] }) ∧
      ∀ c ∈ (HandleUser h rt s w r).calls, c.args.getLast? = some (Arg.int id)) ∧
    (w.wroteHeader = false → ∀ m : String,
      (Error w 400 m).panic = none ∧ (Error w 400 m).w.Code = 400) ∧
    (Atoi "" = none ∧ Atoi "5/" = none ∧ Atoi "9223372036854775808" = none ∧
      Atoi "-9223372036854775809" = none) := by
  have htrim : TrimPrefix r.Path "/api/v1/users/" = seg := by
    rw [hpath]; exact trimPrefix_append _ _
  refine ⟨?_, ?_, ?_, ?_⟩
  · intro hnone
    by_cases hseg : seg = ""
    · simp [HandleUser, htrim, hseg]
    · simp [HandleUser, htrim, hseg, hnone]
  · intro id hid
    have hseg : seg ≠ "" := atoi_ne_empty seg id hid
    have hdisp : HandleUser h rt s w r =
        (if r.Method = "GET" then getUser h s w r id
         else if r.Method = "PUT" then updateUser h rt s w r id
         else if r.Method = "DELETE" then deleteUser h s w r id
         else { out := Error w 405 "Method not allowed", state := s, calls := [] }) := by
      simp only [HandleUser, htrim, hseg, if_false, hid]
    refine ⟨hdisp, ?_⟩
    rw [hdisp]
    by_cases hg : r.Method = "GET"
    · rw [if_pos hg, getUser_calls]
      intro c hc
      simp at hc
      subst hc
      rfl
    · by_cases hp : r.Method = "PUT"
      · rw [if_neg hg, if_pos hp]
        exact updateUser_calls h rt s w r id
      · by_cases hd : r.Method = "DELETE"
        · rw [if_neg hg, if_neg hp, if_pos hd, deleteUser_calls]
          intro c hc
          simp at hc
          subst hc
          rfl
        · rw [if_neg hg, if_neg hp, if_neg hd]
          simp
  · intro hw m
    rw [error_unwritten w 400 m hw (by decide) (by decide)]
    simp
  · refine ⟨by decide, by decide, by decide, by decide⟩

/-- Instance of C6: the segment "5/" is refused with 400 and no call, the segment "42" reaches `deleteUser` with id 42. -/
theorem handleUser_id_parsing_witness :
    (Atoi "5/" = none ∧
      (HandleUser { db := noRowsDB }
          (fixedRuntime { Username := "", Email := "" } { Username := "neo", Email := "" }) ()
          NewRecorder { Method := "DELETE", Path := "/api/v1/users/5/", Body := "" }).out
        = Error NewRecorder 400 "Invalid user ID" ∧
      (HandleUser { db := noRowsDB }
          (fixedRuntime { Username := "", Email := "" } { Username := "neo", Email := "" }) ()
          NewRecorder { Method := "DELETE", Path := "/api/v1/users/5/", Body := "" }).calls
        = []) ∧
    (Atoi "42" = some 42 ∧
      HandleUser { db := noRowsDB }
          (fixedRuntime { Username := "", Email := "" } { Username := "neo", Email := "" }) ()
          NewRecorder { Method := "DELETE", Path := "/api/v1/users/42", Body := "" }
        = deleteUser { db := noRowsDB } () NewRecorder
            { Method := "DELETE", Path := "/api/v1/users/42", Body := "" } 42) :=
  ⟨⟨by decide,
    ((handleUser_id_parsing { db := noRowsDB }
      (fixedRuntime { Username := "", Email := "" } { Username := "neo", Email := "" }) ()
      NewRecorder { Method := "DELETE", Path := "/api/v1/users/5/", Body := "" } "5/"
      (by decide)).1 (by decide)).1,
    ((handleUser_id_parsing { db := noRowsDB }
      (fixedRuntime { Username := "", Email := "" } { Username := "neo", Email := "" }) ()
      NewRecorder { Method := "DELETE", Path := "/api/v1/users/5/", Body := "" } "5/"
      (by decide)).1 (by decide)).2.1⟩,
   ⟨by decide,
    ((handleUser_id_parsing { db := noRowsDB }
      (fixedRuntime { Username := "", Email := "" } { Username := "neo", Email := "" }) ()
      NewRecorder { Method := "DELETE", Path := "/api/v1/users/42", Body := "" } "42"
      (by decide)).2.1 42 (by decide)).1⟩⟩

/-! ## Unsupported methods (handlers/users.go) -/

/-- C7, as stated, fails: PATCH on the item endpoint with the segment "abc",
or with the empty segment, is answered 400, not 405. -/
theorem handleUser_patch_bad_segment :
    (HandleUser { db := noRowsDB }
        (fixedRuntime { Username := "", Email := "" } { Username := "neo", Email := "" }) ()
        NewRecorder { Method := "PATCH", Path := "/api/v1/users/abc", Body := "" }).out.w.Code
      = 400 ∧
    (HandleUser { db := noRowsDB }
        (fixedRuntime { Username := "", Email := "" } { Username := "neo", Email := "" }) ()
        NewRecorder { Method := "PATCH", Path := "/api/v1/users/", Body := "" }).out.w.Code
      = 400 := by
  constructor <;> rfl

/-- C7, amended: `HandleUsers` answers 405 to every method other than GET and
POST, and `HandleUser` answers 405 to every method other than GET, PUT and
DELETE when the path segment parses as an integer; in both cases no database
call is made and the database state is untouched. When the segment does not
parse, `HandleUser` answers 400 whatever the method is. -/
theorem unsupported_method_response {σ : Type} (h : Handlers σ) (rt : Runtime) (s : σ)
    (w : ResponseWriter) (r : Request) :
    (r.Method ≠ "GET" → r.Method ≠ "POST" →
      (HandleUsers h rt s w r).out = Error w 405 "Method not allowed" ∧
      (HandleUsers h rt s w r).calls = [] ∧
      (HandleUsers h rt s w r).state = s) ∧
    (r.Method ≠ "GET" → r.Method ≠ "PUT" → r.Method ≠ "DELETE" →
      ∀ (seg : String) (id : Int), r.Path = "/api/v1/users/" ++ seg → Atoi seg = some id →
      (HandleUser h rt s w r).out = Error w 405 "Method not allowed" ∧
      (HandleUser h rt s w r).calls = [] ∧
      (HandleUser h rt s w r).state = s) ∧
    (∀ seg : String, r.Path = "/api/v1/users/" ++ seg → Atoi seg = none →
      (HandleUser h rt s w r).out =
        Error w 400 (if seg = "" then "User ID is required" else "Invalid user ID") ∧
      (HandleUser h rt s w r).calls = [] ∧
      (HandleUser h rt s w r).state = s) ∧
    (w.wroteHeader = false →
      (Error w 405 "Method not allowed").panic = none ∧
      (Error w 405 "Method not allowed").w.Code = 405 ∧
      (Error w 405 "Method not allowed").w.Body = w.Body ++
        [JVal.obj [("success", JVal.bool false), ("error", JVal.str "Method not allowed")]] ∧
      ∀ m : String, (Error w 400 m).w.Code = 400) := by
  refine ⟨?_, ?_, ?_, ?_⟩
  · intro hg hp
    simp [HandleUsers, hg, hp]
  · intro hg hp hd seg id hpath hid
    have hseg : seg ≠ "" := atoi_ne_empty seg id hid
    have htrim : TrimPrefix r.Path "/api/v1/users/" = seg := by
      rw [hpath]; exact trimPrefix_append _ _
    simp [HandleUser, htrim, hseg, hid, hg, hp, hd]
  · intro seg hpath hnone
    have htrim : TrimPrefix r.Path "/api/v1/users/" = seg := by
      rw [hpath]; exact trimPrefix_append _ _
    by_cases hseg : seg = ""
    · simp [HandleUser, htrim, hseg]
    · simp [HandleUser, htrim, hseg, hnone]
  · intro hw
    rw [error_unwritten w 405 _ hw (by decide) (by decide)]
    refine ⟨rfl, rfl, by simp, ?_⟩
    intro m
    rw [error_unwritten w 400 m hw (by decide) (by decide)]

/-- Instance of C7 as amended: DELETE on the collection and PATCH on item 42 are answered 405 without a database call. -/
theorem unsupported_method_response_witness :
    (HandleUsers { db := noRowsDB }
        (fixedRuntime { Username := "", Email := "" } { Username := "neo", Email := "" }) ()
        NewRecorder { Method := "DELETE", Path := "/api/v1/users", Body := "" }).out
      = Error NewRecorder 405 "Method not allowed" ∧
    (HandleUser { db := noRowsDB }
        (fixedRuntime { Username := "", Email := "" } { Username := "neo", Email := "" }) ()
        NewRecorder { Method := "PATCH", Path := "/api/v1/users/42", Body := "" }).out
      = Error NewRecorder 405 "Method not allowed" ∧
    (HandleUser { db := noRowsDB }
        (fixedRuntime { Username := "", Email := "" } { Username := "neo", Email := "" }) ()
        NewRecorder { Method := "PATCH", Path := "/api/v1/users/42", Body := "" }).calls = [] ∧
    (Error NewRecorder 405 "Method not allowed").w.Code = 405 :=
  ⟨((unsupported_method_response { db := noRowsDB }
      (fixedRuntime { Username := "", Email := "" } { Username := "neo", Email := "" }) ()
      NewRecorder { Method := "DELETE", Path := "/api/v1/users", Body := "" }).1
      (by decide) (by decide)).1,
   ((unsupported_method_response { db := noRowsDB }
      (fixedRuntime { Username := "", Email := "" } { Username := "neo", Email := "" }) ()
      NewRecorder { Method := "PATCH", Path := "/api/v1/users/42", Body := "" }).2.1
      (by decide) (by decide) (by decide) "42" 42 (by decide) (by decide)).1,
   ((unsupported_method_response { db := noRowsDB }
      (fixedRuntime { Username := "", Email := "" } { Username := "neo", Email := "" }) ()
      NewRecorder { Method := "PATCH", Path := "/api/v1/users/42", Body := "" }).2.1
      (by decide) (by decide) (by decide) "42" 42 (by decide) (by decide)).2.1,
   ((unsupported_method_response { db := noRowsDB }
      (fixedRuntime { Username := "", Email := "" } { Username := "neo", Email := "" }) ()
      NewRecorder { Method := "PATCH", Path := "/api/v1/users/42", Body := "" }).2.2.2 rfl).2.1⟩

/-! ## Recovery (middleware/recovery.go) -/

/-- The response `Error` writes on a writer whose header has already been
written: the status and the sent header stay, the envelope is appended. -/
theorem error_written (w : ResponseWriter) (status : Int) (m : String)
    (hw : w.wroteHeader = true) :
    Error w status m =
      { w :=
          { header := ("Content-Type", "application/json") ::
              w.header.filter (fun kv => kv.1 ≠ "Content-Type"),
            wroteHeader := true,
            Code := w.Code,
            sent := w.sent,
            Body := w.Body ++ [JVal.obj (("success", JVal.bool false) ::
              (if m = "" then [] else [("error", JVal.str m)]))] },
        panic := none } := by
  simp [Error, JSON, ResponseWriter.HeaderSet, ResponseWriter.WriteHeader, hw,
    Marshal.marshal, errorEnvelope, ResponseWriter.Write]

/-- C8, as stated, fails: a handler that has written a 200 header before it
panics leaves, through `Recovery`, a response with status 200, not 500; the
error envelope is only appended to the body. -/
theorem recovery_after_header_keeps_status :
    (Recovery panicAfterHeader NewRecorder
        { Method := "GET", Path := "/test", Body := "" }).w.Code = 200 ∧
    (Recovery panicAfterHeader NewRecorder
        { Method := "GET", Path := "/test", Body := "" }).w.Body =
      [JVal.obj [("success", JVal.bool false), ("error", JVal.str "Internal Server Error")]] ∧
    (Recovery panicAfterHeader NewRecorder
        { Method := "GET", Path := "/test", Body := "" }).panic = none := by
  refine ⟨rfl, rfl, rfl⟩

/-- C8, amended: `Recovery(next).ServeHTTP` always returns normally. When
`next` panics, the error envelope with "Internal Server Error" is appended to
the body, whatever the panic value is (only the log line carries it); the
status is 500 and the content type JSON when `next` had not written the
header before panicking, and the status `next` wrote stands otherwise. When
`next` does not panic, `Recovery` changes nothing. -/
theorem recovery_response (next : Handler) (w : ResponseWriter) (r : Request) :
    (Recovery next w r).panic = none ∧
    (∀ v : String, (next w r).panic = some v →
      (Recovery next w r).w = (Error (next w r).w 500 "Internal Server Error").w ∧
      (Recovery next w r).log = (next w r).log ++ ["Panic recovered: " ++ v] ∧
      (Recovery next w r).w.Body = (next w r).w.Body ++
        [JVal.obj [("success", JVal.bool false), ("error", JVal.str "Internal Server Error")]] ∧
      ((next w r).w.wroteHeader = false →
        (Recovery next w r).w.Code = 500 ∧
        (Recovery next w r).w.SentHeader "Content-Type" = some "application/json") ∧
      ((next w r).w.wroteHeader = true →
        (Recovery next w r).w.Code = (next w r).w.Code ∧
        (Recovery next w r).w.sent = (next w r).w.sent)) ∧
    (∀ (other : Handler) (v1 v2 : String),
      (next w r).panic = some v1 → (other w r).panic = some v2 →
      (next w r).w = (other w r).w →
      (Recovery next w r).w = (Recovery other w r).w) ∧
    ((next w r).panic = none → Recovery next w r = next w r) := by
  have hrec : ∀ (n : Handler) (v : String), (n w r).panic = some v →
      Recovery n w r =
        { w := (Error (n w r).w 500 "Internal Server Error").w,
          log := (n w r).log ++ ["Panic recovered: " ++ v],
          panic := (Error (n w r).w 500 "Internal Server Error").panic } := by
    intro n v hv
    simp [Recovery, hv]
  have hnop : ∀ w0 : ResponseWriter, (Error w0 500 "Internal Server Error").panic = none := by
    intro w0
    cases hw : w0.wroteHeader with
    | true => rw [error_written w0 500 _ hw]
    | false => rw [error_unwritten w0 500 _ hw (by decide) (by decide)]
  refine ⟨?_, ?_, ?_, ?_⟩
  · cases hp : (next w r).panic with
    | none => simp [Recovery, hp]
    | some v => rw [hrec next v hp]; exact hnop _
  · intro v hv
    rw [hrec next v hv]
    refine ⟨rfl, rfl, ?_, ?_, ?_⟩
    · cases hw : (next w r).w.wroteHeader with
      | true => rw [error_written _ 500 _ hw]; simp
      | false => rw [error_unwritten _ 500 _ hw (by decide) (by decide)]; simp
    · intro hw
      rw [error_unwritten _ 500 _ hw (by decide) (by decide)]
      simp [ResponseWriter.SentHeader, List.lookup]
    · intro hw
      rw [error_written _ 500 _ hw]
      simp
  · intro other v1 v2 h1 h2 hw
    rw [hrec next v1 h1, hrec other v2 h2, hw]
  · intro hp
    simp [Recovery, hp]

/-- Instance of C8 as amended: the handler of `TestRecovery` gets status 500 and the envelope, a handler that panics after its 200 header keeps 200. -/
theorem recovery_response_witness :
    (Recovery panicAtOnce NewRecorder { Method := "GET", Path := "/test", Body := "" }).panic
      = none ∧
    (Recovery panicAtOnce NewRecorder { Method := "GET", Path := "/test", Body := "" }).w.Code
      = 500 ∧
    (Recovery panicAtOnce NewRecorder { Method := "GET", Path := "/test", Body := "" }).w.Body
      = [JVal.obj [("success", JVal.bool false), ("error", JVal.str "Internal Server Error")]] ∧
    (Recovery panicAfterHeader NewRecorder { Method := "GET", Path := "/test", Body := "" }).w.Code
      = 200 :=
  ⟨(recovery_response panicAtOnce NewRecorder { Method := "GET", Path := "/test", Body := "" }).1,
   (((recovery_response panicAtOnce NewRecorder
      { Method := "GET", Path := "/test", Body := "" }).2.1 "test panic" rfl).2.2.2.1 rfl).1,
   ((recovery_response panicAtOnce NewRecorder
      { Method := "GET", Path := "/test", Body := "" }).2.1 "test panic" rfl).2.2.1,
   (((recovery_response panicAfterHeader NewRecorder
      { Method := "GET", Path := "/test", Body := "" }).2.1 "late failure" rfl).2.2.2.2 rfl).1⟩

/-! ## Migrations (database/migrations.go) -/

/-- The loop of `RunMigrations` over its three statements, unfolded. -/
theorem runMigrations_unfold {σ : Type} (db : DB σ) (s : σ) (m0 m1 m2 : String)
    (hm : migrations = [m0, m1, m2]) :
    RunMigrations db s =
      match db.Exec s m0 [] with
      | (Except.error e0, s1) =>
        { err := some { text := "migration 0 failed: " ++ e0.Error, unwrap := e0 },
          state := s1, calls := [DBCall.Exec m0 []] }
      | (Except.ok _, s1) =>
        match db.Exec s1 m1 [] with
        | (Except.error e1, s2) =>
          { err := some { text := "migration 1 failed: " ++ e1.Error, unwrap := e1 },
            state := s2, calls := [DBCall.Exec m0 [], DBCall.Exec m1 []] }
        | (Except.ok _, s2) =>
          match db.Exec s2 m2 [] with
          | (Except.error e2, s3) =>
            { err := some { text := "migration 2 failed: " ++ e2.Error, unwrap := e2 },
              state := s3, calls := [DBCall.Exec m0 [], DBCall.Exec m1 [], DBCall.Exec m2 []] }
          | (Except.ok _, s3) =>
            { err := none, state := s3,
              calls := [DBCall.Exec m0 [], DBCall.Exec m1 [], DBCall.Exec m2 []] } := by
  unfold RunMigrations
  rw [hm]
  simp only [runMigrationsFrom]
  rcases db.Exec s m0 [] with ⟨_ | _, s1⟩
  · rfl
  · simp only
    rcases db.Exec s1 m1 [] with ⟨_ | _, s2⟩
    · rfl
    · simp only
      rcases db.Exec s2 m2 [] with ⟨_ | _, s3⟩
      · rfl
      · rfl

/-- C9: `RunMigrations` executes the create-table statement, the username
index and the email index in that order, each on the state the one before
left. If the statement at position 0, 1 or 2 is the first to fail, the
statements executed are exactly those up to it, and the returned error reads
"migration i failed: " followed by the driver's text and wraps the driver's
error. The result is nil if and only if all three statements succeed. -/
theorem runMigrations_outcome {σ : Type} (db : DB σ) (s : σ) (m0 m1 m2 : String)
    (p0 p1 p2 : Except DBError ExecResult × σ)
    (hm : migrations = [m0, m1, m2])
    (h0 : db.Exec s m0 [] = p0) (h1 : db.Exec p0.2 m1 [] = p1) (h2 : db.Exec p1.2 m2 [] = p2) :
    ("CREATE TABLE IF NOT EXISTS users (".toList.isPrefixOf m0.toList = true ∧
      m1 = "CREATE INDEX IF NOT EXISTS idx_users_username ON users(username)" ∧
      m2 = "CREATE INDEX IF NOT EXISTS idx_users_email ON users(email)") ∧
    (∀ e : DBError, p0.1 = Except.error e →
      (RunMigrations db s).err = some { text := "migration 0 failed: " ++ e.Error, unwrap := e } ∧
      (RunMigrations db s).calls = [DBCall.Exec m0 []] ∧
      (RunMigrations db s).state = p0.2) ∧
    (∀ (r0 : ExecResult) (e : DBError), p0.1 = Except.ok r0 → p1.1 = Except.error e →
      (RunMigrations db s).err = some { text := "migration 1 failed: " ++ e.Error, unwrap := e } ∧
      (RunMigrations db s).calls = [DBCall.Exec m0 [], DBCall.Exec m1 []] ∧
      (RunMigrations db s).state = p1.2) ∧
    (∀ (r0 r1 : ExecResult) (e : DBError),
      p0.1 = Except.ok r0 → p1.1 = Except.ok r1 → p2.1 = Except.error e →
      (RunMigrations db s).err = some { text := "migration 2 failed: " ++ e.Error, unwrap := e } ∧
      (RunMigrations db s).calls = [DBCall.Exec m0 [], DBCall.Exec m1 [], DBCall.Exec m2 []] ∧
      (RunMigrations db s).state = p2.2) ∧
    (∀ r0 r1 r2 : ExecResult,
      p0.1 = Except.ok r0 → p1.1 = Except.ok r1 → p2.1 = Except.ok r2 →
      (RunMigrations db s).err = none ∧
      (RunMigrations db s).calls = [DBCall.Exec m0 [], DBCall.Exec m1 [], DBCall.Exec m2 []] ∧
      (RunMigrations db s).state = p2.2) ∧
    ((RunMigrations db s).err = none ↔
      (∃ r0, p0.1 = Except.ok r0) ∧ (∃ r1, p1.1 = Except.ok r1) ∧ (∃ r2, p2.1 = Except.ok r2)) := by
  have hms : m0 = migrations.getD 0 "" ∧ m1 = migrations.getD 1 "" ∧ m2 = migrations.getD 2 "" := by
    rw [hm]; simp
  rw [runMigrations_unfold db s m0 m1 m2 hm, h0]
  obtain ⟨q0, s1⟩ := p0
  simp only at h1
  refine ⟨?_, ?_⟩
  · obtain ⟨e0, e1, e2⟩ := hms
    subst e0 e1 e2
    refine ⟨by decide, by decide, by decide⟩
  cases q0 with
  | error e0 => simp
  | ok r0 =>
    simp only [h1]
    obtain ⟨q1, s2⟩ := p1
    simp only at h2
    cases q1 with
    | error e1 => simp
    | ok r1 =>
      simp only [h2]
      obtain ⟨q2, s3⟩ := p2
      cases q2 with
      | error e2 => simp
      | ok r2 => simp

/-- Instance of C9: the second statement fails, the error names migration 1 and the third statement is not executed. -/
theorem runMigrations_outcome_witness :
    (RunMigrations scriptedDB [none, some (DBError.other "permission denied"), none]).err
      = some { text := "migration 1 failed: permission denied",
               unwrap := DBError.other "permission denied" } ∧
    (RunMigrations scriptedDB [none, some (DBError.other "permission denied"), none]).calls
      = [DBCall.Exec (migrations.getD 0 "") [], DBCall.Exec (migrations.getD 1 "") []] ∧
    (RunMigrations scriptedDB [none, some (DBError.other "permission denied"), none]).state
      = [none] :=
  (runMigrations_outcome scriptedDB [none, some (DBError.other "permission denied"), none]
    (migrations.getD 0 "") (migrations.getD 1 "") (migrations.getD 2 "")
    (Except.ok { RowsAffected := Except.ok 0 }, [some (DBError.other "permission denied"), none])
    (Except.error (DBError.other "permission denied"), [none])
    (Except.ok { RowsAffected := Except.ok 0 }, [])
    rfl rfl rfl rfl).2.2.1 { RowsAffected := Except.ok 0 } (DBError.other "permission denied")
    rfl rfl

/-! ## Writing the envelope (pkg/response) -/

/-- The response `Success` writes on a writer whose header is still unwritten,
for a status net/http accepts: the status and the content type, and the
encoded envelope when the payload can be encoded. -/
theorem success_unwritten {α : Type} [Marshal α] (w : ResponseWriter) (status : Int)
    (d : Option α) (hw : w.wroteHeader = false) (hlo : 100 ≤ status) (hhi : status ≤ 999) :
    Success w status d =
      { w :=
          { header := ("Content-Type", "application/json") ::
              w.header.filter (fun kv => kv.1 ≠ "Content-Type"),
            wroteHeader := true,
            Code := status,
            sent := ("Content-Type", "application/json") ::
              w.header.filter (fun kv => kv.1 ≠ "Content-Type"),
            Body := w.Body ++
              (match Marshal.marshal (successEnvelope d) with
                | some doc => [doc]
                | none => []) },
        panic := none } := by
  have hc : ¬ (status < 100 ∨ status > 999) := by omega
  simp only [Success, JSON, ResponseWriter.HeaderSet, ResponseWriter.WriteHeader, hw, hc,
    if_false, Bool.false_eq_true]
  cases hm : (Marshal.marshal (successEnvelope d) : Option JVal) with
  | none => simp
  | some doc => simp [ResponseWriter.Write]

/-- Decoding what `Error` writes gives back the flag and the message. -/
theorem unmarshal_error_envelope (m : String) :
    Response.unmarshal (JVal.obj (("success", JVal.bool false) ::
        (if m = "" then [] else [("error", JVal.str m)])))
      = some { Success := false, Data := none, Error := m } := by
  by_cases hm : m = ""
  · subst hm
    simp [Response.unmarshal, lookupKey, List.lookup]
  · simp [Response.unmarshal, lookupKey, List.lookup, hm]

/-- Decoding what `Success` writes gives success true and an empty error. -/
theorem unmarshal_success_envelope (fields : List (String × JVal))
    (hf : fields = [] ∨ ∃ j, fields = [("data", j)]) :
    ∃ resp : Response JVal,
      Response.unmarshal (JVal.obj (("success", JVal.bool true) :: fields)) = some resp ∧
      resp.Success = true ∧ resp.Error = "" := by
  rcases hf with hf | ⟨j, hf⟩
  · subst hf
    refine ⟨{ Success := true, Data := none, Error := "" }, ?_, rfl, rfl⟩
    simp [Response.unmarshal, lookupKey, List.lookup]
  · subst hf
    refine ⟨{ Success := true,
              Data := (match j with
                | JVal.null => none
                | v => some v),
              Error := "" }, ?_, rfl, rfl⟩
    cases j <;> simp [Response.unmarshal, lookupKey, List.lookup]

/-- The JSON object `Success` encodes: `data` is present only for a non-nil payload, and the encoding fails only when the payload's does. -/
theorem marshal_successEnvelope {α : Type} [Marshal α] (d : Option α) :
    Marshal.marshal (successEnvelope d) =
      (match d with
        | none => some (JVal.obj [("success", JVal.bool true)])
        | some v =>
          (Marshal.marshal v).map
            (fun j => JVal.obj [("success", JVal.bool true), ("data", j)])) := by
  cases d with
  | none => simp [Marshal.marshal, successEnvelope]
  | some v =>
    simp only [Marshal.marshal, successEnvelope]
    cases hv : (Marshal.marshal v : Option JVal) <;> simp [Marshal.marshal] at hv ⊢

/-- The statement for a request with a username only. -/
theorem buildUpdate_username_only (req : UpdateUserRequest) (now : Time) (id : Int)
    (hu : req.Username ≠ "") (he : req.Email = "") :
    buildUpdate req now id =
      ("\n\t\tUPDATE users\n\t\tSET username = $1, updated_at = $2\n\t\tWHERE id = $3\n\t\tRETURNING id, username, email, created_at, updated_at\n\t",
       [Arg.str req.Username, Arg.time now, Arg.int id]) := by
  simp only [buildUpdate, hu, he, ne_eq, not_true_eq_false, not_false_eq_true, if_true,
    if_false, List.nil_append, List.cons_append, Prod.mk.injEq, and_true]
  rfl

/-- The statement for a request with an email only. -/
theorem buildUpdate_email_only (req : UpdateUserRequest) (now : Time) (id : Int)
    (hu : req.Username = "") (he : req.Email ≠ "") :
    buildUpdate req now id =
      ("\n\t\tUPDATE users\n\t\tSET email = $1, updated_at = $2\n\t\tWHERE id = $3\n\t\tRETURNING id, username, email, created_at, updated_at\n\t",
       [Arg.str req.Email, Arg.time now, Arg.int id]) := by
  simp only [buildUpdate, hu, he, ne_eq, not_true_eq_false, not_false_eq_true, if_true,
    if_false, List.nil_append, List.cons_append, Prod.mk.injEq, and_true]
  rfl

/-- The statement for a request with both fields. -/
theorem buildUpdate_both (req : UpdateUserRequest) (now : Time) (id : Int)
    (hu : req.Username ≠ "") (he : req.Email ≠ "") :
    buildUpdate req now id =
      ("\n\t\tUPDATE users\n\t\tSET username = $1, email = $2, updated_at = $3\n\t\tWHERE id = $4\n\t\tRETURNING id, username, email, created_at, updated_at\n\t",
       [Arg.str req.Username, Arg.str req.Email, Arg.time now, Arg.int id]) := by
  simp only [buildUpdate, hu, he, ne_eq, not_true_eq_false, not_false_eq_true, if_true,
    if_false, List.nil_append, List.cons_append, Prod.mk.injEq, and_true]
  rfl

/-- The one database call of `updateUser` for a body that decodes and passes
validation: the statement of `buildUpdate` with its arguments. -/
theorem updateUser_validated_calls {σ : Type} (h : Handlers σ) (rt : Runtime) (s : σ)
    (w : ResponseWriter) (r : Request) (id : Int) (req : UpdateUserRequest)
    (hdec : rt.DecodeUpdate r.Body = some req) (hval : req.Validate = none) :
    (updateUser h rt s w r id).calls =
      [DBCall.QueryRowx (buildUpdate req rt.Now id).1 (buildUpdate req rt.Now id).2] := by
  simp only [updateUser, hdec, hval]
  cases h.db.QueryRowx s (buildUpdate req rt.Now id).1 (buildUpdate req rt.Now id).2 with
  | mk reply s1 =>
    cases reply with
    | error err =>
      by_cases he : err = DBError.ErrNoRows <;> by_cases hc : isConflict err = true <;>
        simp [he, hc]
    | ok user => rfl

/-- The assignments that occur in each of the three statement texts. -/
theorem updateQuery_columns :
    (Contains "\n\t\tUPDATE users\n\t\tSET username = $1, updated_at = $2\n\t\tWHERE id = $3\n\t\tRETURNING id, username, email, created_at, updated_at\n\t" "username = $" = true ∧
      Contains "\n\t\tUPDATE users\n\t\tSET username = $1, updated_at = $2\n\t\tWHERE id = $3\n\t\tRETURNING id, username, email, created_at, updated_at\n\t" "email = $" = false ∧
      Contains "\n\t\tUPDATE users\n\t\tSET username = $1, updated_at = $2\n\t\tWHERE id = $3\n\t\tRETURNING id, username, email, created_at, updated_at\n\t" "updated_at = $" = true) ∧
    (Contains "\n\t\tUPDATE users\n\t\tSET email = $1, updated_at = $2\n\t\tWHERE id = $3\n\t\tRETURNING id, username, email, created_at, updated_at\n\t" "username = $" = false ∧
      Contains "\n\t\tUPDATE users\n\t\tSET email = $1, updated_at = $2\n\t\tWHERE id = $3\n\t\tRETURNING id, username, email, created_at, updated_at\n\t" "email = $" = true ∧
      Contains "\n\t\tUPDATE users\n\t\tSET email = $1, updated_at = $2\n\t\tWHERE id = $3\n\t\tRETURNING id, username, email, created_at, updated_at\n\t" "updated_at = $" = true) ∧
    (Contains "\n\t\tUPDATE users\n\t\tSET username = $1, email = $2, updated_at = $3\n\t\tWHERE id = $4\n\t\tRETURNING id, username, email, created_at, updated_at\n\t" "username = $" = true ∧
      Contains "\n\t\tUPDATE users\n\t\tSET username = $1, email = $2, updated_at = $3\n\t\tWHERE id = $4\n\t\tRETURNING id, username, email, created_at, updated_at\n\t" "email = $" = true ∧
      Contains "\n\t\tUPDATE users\n\t\tSET username = $1, email = $2, updated_at = $3\n\t\tWHERE id = $4\n\t\tRETURNING id, username, email, created_at, updated_at\n\t" "updated_at = $" = true) := by
  refine ⟨⟨?_, ?_, ?_⟩, ⟨?_, ?_, ?_⟩, ⟨?_, ?_, ?_⟩⟩ <;> decide

/-- C11: for a request that passes validation, the statement `updateUser`
sends assigns username exactly when Username is non-empty, email exactly when
Email is non-empty, and always updated_at, and nothing else; the assignments
use $1, $2, ... in order of appearance, the WHERE clause uses the next
placeholder, and the arguments are the provided username, the provided
email, the current time and last the id, one per placeholder. -/
theorem updateUser_statement {σ : Type} (h : Handlers σ) (rt : Runtime) (s : σ)
    (w : ResponseWriter) (r : Request) (id : Int) (req : UpdateUserRequest)
    (hdec : rt.DecodeUpdate r.Body = some req) (hval : req.Validate = none) :
    (updateUser h rt s w r id).calls =
      [DBCall.QueryRowx (buildUpdate req rt.Now id).1 (buildUpdate req rt.Now id).2] ∧
    ((req.Username ≠ "" ∧ req.Email = "") ∨ (req.Username = "" ∧ req.Email ≠ "") ∨
      (req.Username ≠ "" ∧ req.Email ≠ "")) ∧
    (req.Username ≠ "" → req.Email = "" →
      buildUpdate req rt.Now id =
        ("\n\t\tUPDATE users\n\t\tSET username = $1, updated_at = $2\n\t\tWHERE id = $3\n\t\tRETURNING id, username, email, created_at, updated_at\n\t",
         [Arg.str req.Username, Arg.time rt.Now, Arg.int id])) ∧
    (req.Username = "" → req.Email ≠ "" →
      buildUpdate req rt.Now id =
        ("\n\t\tUPDATE users\n\t\tSET email = $1, updated_at = $2\n\t\tWHERE id = $3\n\t\tRETURNING id, username, email, created_at, updated_at\n\t",
         [Arg.str req.Email, Arg.time rt.Now, Arg.int id])) ∧
    (req.Username ≠ "" → req.Email ≠ "" →
      buildUpdate req rt.Now id =
        ("\n\t\tUPDATE users\n\t\tSET username = $1, email = $2, updated_at = $3\n\t\tWHERE id = $4\n\t\tRETURNING id, username, email, created_at, updated_at\n\t",
         [Arg.str req.Username, Arg.str req.Email, Arg.time rt.Now, Arg.int id])) ∧
    (Contains (buildUpdate req rt.Now id).1 "username = $" = true ↔ req.Username ≠ "") ∧
    (Contains (buildUpdate req rt.Now id).1 "email = $" = true ↔ req.Email ≠ "") ∧
    Contains (buildUpdate req rt.Now id).1 "updated_at = $" = true ∧
    (buildUpdate req rt.Now id).2.length =
      (if req.Username = "" then 0 else 1) + (if req.Email = "" then 0 else 1) + 2 ∧
    (buildUpdate req rt.Now id).2.getLast? = some (Arg.int id) := by
  have hcases : (req.Username ≠ "" ∧ req.Email = "") ∨ (req.Username = "" ∧ req.Email ≠ "") ∨
      (req.Username ≠ "" ∧ req.Email ≠ "") := by
    by_cases hu : req.Username = ""
    · by_cases he : req.Email = ""
      · exfalso
        simp [UpdateUserRequest.Validate, hu, he] at hval
      · exact Or.inr (Or.inl ⟨hu, he⟩)
    · by_cases he : req.Email = ""
      · exact Or.inl ⟨hu, he⟩
      · exact Or.inr (Or.inr ⟨hu, he⟩)
  refine ⟨updateUser_validated_calls h rt s w r id req hdec hval, hcases,
    fun hu he => buildUpdate_username_only req rt.Now id hu he,
    fun hu he => buildUpdate_email_only req rt.Now id hu he,
    fun hu he => buildUpdate_both req rt.Now id hu he, ?_⟩
  obtain ⟨⟨a1, a2, a3⟩, ⟨b1, b2, b3⟩, ⟨c1, c2, c3⟩⟩ := updateQuery_columns
  rcases hcases with ⟨hu, he⟩ | ⟨hu, he⟩ | ⟨hu, he⟩
  · rw [buildUpdate_username_only req rt.Now id hu he]
    dsimp only
    refine ⟨⟨fun _ => hu, fun _ => a1⟩, ⟨fun hc => ?_, fun hn => absurd he hn⟩,
      a3, by simp [hu, he], rfl⟩
    rw [a2] at hc
    exact absurd hc (by decide)
  · rw [buildUpdate_email_only req rt.Now id hu he]
    dsimp only
    refine ⟨⟨fun hc => ?_, fun hn => absurd hu hn⟩, ⟨fun _ => he, fun _ => b2⟩,
      b3, by simp [hu, he], rfl⟩
    rw [b1] at hc
    exact absurd hc (by decide)
  · rw [buildUpdate_both req rt.Now id hu he]
    dsimp only
    exact ⟨⟨fun _ => hu, fun _ => c1⟩, ⟨fun _ => he, fun _ => c2⟩,
      c3, by simp [hu, he], rfl⟩

/-- Instance of C11: a request with the username "neo" only, for user 42. -/
theorem updateUser_statement_witness :
    (updateUser { db := noRowsDB }
        (fixedRuntime { Username := "", Email := "" } { Username := "neo", Email := "" }) ()
        NewRecorder { Method := "PUT", Path := "/api/v1/users/42", Body := "" } 42).calls
      = [DBCall.QueryRowx
          "\n\t\tUPDATE users\n\t\tSET username = $1, updated_at = $2\n\t\tWHERE id = $3\n\t\tRETURNING id, username, email, created_at, updated_at\n\t"
          [Arg.str "neo", Arg.time { rfc3339 := "2024-01-01T00:00:00Z" }, Arg.int 42]] :=
  (updateUser_statement { db := noRowsDB }
      (fixedRuntime { Username := "", Email := "" } { Username := "neo", Email := "" }) ()
      NewRecorder { Method := "PUT", Path := "/api/v1/users/42", Body := "" } 42
      { Username := "neo", Email := "" } rfl (by decide)).1

end GoSqlxApi
